import Mathlib

/-!
Shallow embedding of the 3d-entity-manager core: the Transform Core
(`Object3D`, src/src/object3d.cpp), the geometry generators
(`SensorVolume`, `TrackLine`), the entity registry and LOD scheduler
(`EntityManager`, src/src/EntityManager.cpp), and the unified-mode policy
(`PerformanceTestManager`, src/src/PerformanceTestManager.cpp).

C++ `double` values are modelled as exact rationals (ℚ), millisecond
timestamps (`qint64`) as ℤ.  External scene-graph math (the osg ellipsoid
conversion and matrix products) is modelled symbolically: a recomputed
matrix is represented by the inputs it was computed from, so two matrices
are equal in the model exactly when they were recomputed from identical
state.  Distances to the viewpoint, which the code obtains from external
vector math, are supplied as function parameters.
-/

namespace LodConfig

/-- src/include/LodConfig.h: DISTANCE_NEAR = 500000.0 m. -/
def DISTANCE_NEAR : ℚ := 500000

/-- src/include/LodConfig.h: DISTANCE_MID = 2000000.0 m. -/
def DISTANCE_MID : ℚ := 2000000

/-- src/include/LodConfig.h: DISTANCE_FAR = 5000000.0 m. -/
def DISTANCE_FAR : ℚ := 5000000

/-- src/include/LodConfig.h: UPDATE_INTERVAL_NEAR = 50 ms. -/
def UPDATE_INTERVAL_NEAR : ℤ := 50

/-- src/include/LodConfig.h: UPDATE_INTERVAL_MID = 100 ms. -/
def UPDATE_INTERVAL_MID : ℤ := 100

/-- src/include/LodConfig.h: UPDATE_INTERVAL_FAR = 200 ms. -/
def UPDATE_INTERVAL_FAR : ℤ := 200

/-- src/include/LodConfig.h: POSITION_EPSILON = 1e-9 (a literal rational,
so the kernel can evaluate comparisons against it). -/
def POSITION_EPSILON : ℚ := { num := 1, den := 1000000000 }

/-- src/include/LodConfig.h: ATTITUDE_EPSILON = 1e-6. -/
def ATTITUDE_EPSILON : ℚ := { num := 1, den := 1000000 }

/-- The 1e-6 epsilon hard-coded in `Object3D::setScale`. -/
def SCALE_EPSILON : ℚ := { num := 1, den := 1000000 }

/-- src/include/LodConfig.h: TRACKLINE_LAYERS_HIGH = 150. -/
def TRACKLINE_LAYERS_HIGH : ℤ := 150

/-- src/include/LodConfig.h: TRACKLINE_LAYERS_MID = 80. -/
def TRACKLINE_LAYERS_MID : ℤ := 80

/-- src/include/LodConfig.h: TRACKLINE_LAYERS_LOW = 40. -/
def TRACKLINE_LAYERS_LOW : ℤ := 40

end LodConfig

/-- `a - b < c` on exact rationals, computed by integer cross-multiplication
over the (positive) denominators.  `Rat` subtraction normalizes through
`Nat.div`, which the kernel cannot evaluate, so the embedding states every
`x - y < z` comparison of the C++ code in this form; `ratSubLt_iff` below
certifies it equal to the textbook subtraction-and-compare. -/
def ratSubLt (a b c : ℚ) : Prop :=
  (a.num * b.den - b.num * a.den) * c.den < c.num * (a.den * b.den)

instance (a b c : ℚ) : Decidable (ratSubLt a b c) := by
  unfold ratSubLt; infer_instance

/-- `c < a - b` by the same cross-multiplication scheme. -/
def ratLtSub (c a b : ℚ) : Prop :=
  c.num * (a.den * b.den) < (a.num * b.den - b.num * a.den) * c.den

instance (c a b : ℚ) : Decidable (ratLtSub c a b) := by
  unfold ratLtSub; infer_instance

/-- `std::abs(a - b) < c`: both `a - b < c` and `b - a < c`. -/
def absDiffLt (a b c : ℚ) : Prop := ratSubLt a b c ∧ ratSubLt b a c

instance (a b c : ℚ) : Decidable (absDiffLt a b c) := by
  unfold absDiffLt; infer_instance

/-- `std::abs(a - b) > c`: either `c < a - b` or `c < b - a`. -/
def absDiffGt (a b c : ℚ) : Prop := ratLtSub c a b ∨ ratLtSub c b a

instance (a b c : ℚ) : Decidable (absDiffGt a b c) := by
  unfold absDiffGt; infer_instance

/-- The matrix held by `m_earthTransform`.  `ident` is the default matrix a
fresh `osg::MatrixTransform` holds; `fromGeo lat lon alt` stands for the
local-to-world matrix the ellipsoid computes from those geodetic inputs in
`Object3D::updateEarthTransform` (external osg math, modelled by its
inputs). -/
inductive EarthMatrix where
  | ident : EarthMatrix
  | fromGeo (lat lon alt : ℚ) : EarthMatrix
deriving DecidableEq

/-- The matrix held by `m_onceTransform`: `fromAtt h p r s` stands for
`scale(s,s,s) * createRotationMatrix(h,p,r)` computed in
`Object3D::updateOnceTransform`. -/
inductive OnceMatrix where
  | ident : OnceMatrix
  | fromAtt (heading pitch roll scale : ℚ) : OnceMatrix
deriving DecidableEq

/-- Model of the `osg::Switch` node `m_lodSwitch`: a child list (index 0 is
the `once` transform carrying the 3D model, index 1 — when present — the
billboard) with a parallel boolean value list, plus the node mask toggled
by `Object3D::setVisible`. -/
structure LodSwitch where
  numChildren : Nat
  values : List Bool
  nodeMaskOn : Bool
deriving DecidableEq

namespace LodSwitch

/-- State of `m_lodSwitch` after the `Object3D` constructor:
one child (the once transform) with value true. -/
def init : LodSwitch := ⟨1, [true], true⟩

/-- `osg::Switch::setValue(pos, value)`: grows the value list to `pos+1`
entries when needed (osg pads with its new-child default; the padding is
immediately overwritten at `pos` in every call site here), then writes
`value` at `pos`. -/
def setValue (pos : Nat) (v : Bool) (s : LodSwitch) : LodSwitch :=
  let vals := if pos < s.values.length then s.values
              else s.values ++ List.replicate (pos + 1 - s.values.length) true
  { s with values := vals.set pos v }

/-- `osg::Switch::addChild(node, value)`: appends a child and its value. -/
def addChild (v : Bool) (s : LodSwitch) : LodSwitch :=
  { s with numChildren := s.numChildren + 1, values := s.values ++ [v] }

/-- Whether the child at index `i` is currently drawn: it must exist, its
switch value must be on, and the node mask must be on. -/
def childShown (i : Nat) (s : LodSwitch) : Bool :=
  decide (i < s.numChildren) && s.values.getD i false && s.nodeMaskOn

end LodSwitch

/-- Transform Core state (`Object3D`, src/include/object3d.h lines 156-188).
`billboardNode` is `some (w, h)` once `createBillboard` has succeeded with
that size; the billboard sits in the switch as child 1 exactly when
`lodSwitch.numChildren ≥ 2`. -/
structure Object3D where
  longitude : ℚ
  latitude : ℚ
  altitude : ℚ
  heading : ℚ
  pitch : ℚ
  roll : ℚ
  scale : ℚ
  visible : Bool
  positionDirty : Bool
  attitudeDirty : Bool
  scaleDirty : Bool
  earthMatrix : EarthMatrix
  onceMatrix : OnceMatrix
  lodSwitch : LodSwitch
  billboardNode : Option (ℚ × ℚ)
  nearDistance : ℚ
  autoLOD : Bool
deriving DecidableEq

namespace Object3D

/-- The `Object3D()` constructor: zero position/attitude, scale 1, visible,
all three dirty flags TRUE, default matrices, a one-child switch, no
billboard, near distance 500 km, auto LOD enabled. -/
def mk0 : Object3D :=
  { longitude := 0, latitude := 0, altitude := 0
    heading := 0, pitch := 0, roll := 0
    scale := 1
    visible := true
    positionDirty := true, attitudeDirty := true, scaleDirty := true
    earthMatrix := .ident, onceMatrix := .ident
    lodSwitch := .init
    billboardNode := none
    nearDistance := 500000
    autoLOD := true }

/-- `Object3D::setPosition` (object3d.cpp lines 50-63): early-return when
every component moved by less than POSITION_EPSILON, else store all three
components and raise the position dirty flag. -/
def setPosition (lon lat alt : ℚ) (o : Object3D) : Object3D :=
  if absDiffLt o.longitude lon LodConfig.POSITION_EPSILON ∧
     absDiffLt o.latitude lat LodConfig.POSITION_EPSILON ∧
     absDiffLt o.altitude alt LodConfig.POSITION_EPSILON then
    o
  else
    { o with longitude := lon, latitude := lat, altitude := alt, positionDirty := true }

/-- `Object3D::setAttitude` (object3d.cpp lines 70-83). -/
def setAttitude (heading pitch roll : ℚ) (o : Object3D) : Object3D :=
  if absDiffLt o.heading heading LodConfig.ATTITUDE_EPSILON ∧
     absDiffLt o.pitch pitch LodConfig.ATTITUDE_EPSILON ∧
     absDiffLt o.roll roll LodConfig.ATTITUDE_EPSILON then
    o
  else
    { o with heading := heading, pitch := pitch, roll := roll, attitudeDirty := true }

/-- `Object3D::setScale` (object3d.cpp lines 85-93); the epsilon 1e-6 is
hard-coded there. -/
def setScale (s : ℚ) (o : Object3D) : Object3D :=
  if absDiffLt o.scale s LodConfig.SCALE_EPSILON then o
  else { o with scale := s, scaleDirty := true }

/-- `Object3D::setVisible` (object3d.cpp lines 95-105): when the value
changes, store it and set the switch node mask (the switch is always
valid here). -/
def setVisible (v : Bool) (o : Object3D) : Object3D :=
  if o.visible ≠ v then
    { o with visible := v, lodSwitch := { o.lodSwitch with nodeMaskOn := v } }
  else o

/-- `Object3D::updateIfDirty` (object3d.cpp lines 107-119): recompute the
earth transform iff position-dirty, then the once transform iff
attitude- or scale-dirty, clearing the consumed flags. -/
def updateIfDirty (o : Object3D) : Object3D :=
  let o1 := if o.positionDirty then
              { o with earthMatrix := .fromGeo o.latitude o.longitude o.altitude,
                       positionDirty := false }
            else o
  if o1.attitudeDirty || o1.scaleDirty then
    { o1 with onceMatrix := .fromAtt o1.heading o1.pitch o1.roll o1.scale,
              attitudeDirty := false, scaleDirty := false }
  else o1

/-- `Object3D::setBillboardImage` (object3d.cpp lines 186-197), with
`createBillboard` (155-184) folded in.  `loadOk` models whether
`osgDB::readImageFile` succeeded; on failure `createBillboard` returns
early, leaving any previously built billboard node in place.  When a valid
billboard node exists it is added as child 1 (value false) if the switch
has fewer than two children, else child 1 is replaced (values untouched). -/
def setBillboardImage (loadOk : Bool) (w h : ℚ) (o : Object3D) : Object3D :=
  let o1 := if loadOk then { o with billboardNode := some (w, h) } else o
  if o1.billboardNode.isSome then
    if o1.lodSwitch.numChildren < 2 then
      { o1 with lodSwitch := o1.lodSwitch.addChild false }
    else o1
  else o1

/-- `Object3D::updateLOD` (object3d.cpp lines 206-230).  `distance` is the
externally computed `(eyePosition - objectPos).length()`.  No-op when auto
LOD is disabled; otherwise switch to the model below the near threshold
and to the billboard at or beyond it. -/
def updateLOD (distance : ℚ) (o : Object3D) : Object3D :=
  if ¬o.autoLOD then o
  else if distance < o.nearDistance then
    { o with lodSwitch := (o.lodSwitch.setValue 0 true).setValue 1 false }
  else
    { o with lodSwitch := (o.lodSwitch.setValue 0 false).setValue 1 true }

/-- `Object3D::forceLODLevel` (object3d.cpp lines 232-249): level 0 shows
the model, level 1 shows the billboard, any other level falls through both
branches and does nothing. -/
def forceLODLevel (level : ℤ) (o : Object3D) : Object3D :=
  if level = 0 then
    { o with lodSwitch := (o.lodSwitch.setValue 0 true).setValue 1 false }
  else if level = 1 then
    { o with lodSwitch := (o.lodSwitch.setValue 0 false).setValue 1 true }
  else o

/-- `Object3D::setAutoLOD` (object3d.cpp lines 251-254). -/
def setAutoLOD (enabled : Bool) (o : Object3D) : Object3D :=
  { o with autoLOD := enabled }

/-- Whether the full 3D model (switch child 0) is currently drawn. -/
def modelShown (o : Object3D) : Bool := o.lodSwitch.childShown 0

/-- Whether the billboard proxy (switch child 1) is currently drawn. -/
def proxyShown (o : Object3D) : Bool := o.lodSwitch.childShown 1

end Object3D

/-- Coverage-volume generator state (`SensorVolume`, src/src/sensorvolume.cpp).
`rebuilds` counts `rebuildGeometry()` calls, the observable wholesale
regeneration of the vertex/index buffers; the constructor performs one. -/
structure SensorVolume where
  radius : ℚ
  currentLodLevel : ℤ
  visible : Bool
  rebuilds : Nat
deriving DecidableEq

namespace SensorVolume

/-- `SensorVolume::setLodLevel` (sensorvolume.cpp lines 50-59): clamp the
level to [0,2]; when it differs from the current tier, store it and
regenerate the geometry. -/
def setLodLevel (level : ℤ) (sv : SensorVolume) : SensorVolume :=
  let level := if level < 0 then 0 else level
  let level := if level > 2 then 2 else level
  if sv.currentLodLevel ≠ level then
    { sv with currentLodLevel := level, rebuilds := sv.rebuilds + 1 }
  else sv

/-- `SensorVolume::setRadius` (sensorvolume.cpp lines 69-75): rebuild only
on a magnitude change above 1 unit. -/
def setRadius (radius : ℚ) (sv : SensorVolume) : SensorVolume :=
  if absDiffGt sv.radius radius 1 then
    { sv with radius := radius, rebuilds := sv.rebuilds + 1 }
  else sv

end SensorVolume

/-- Trajectory-line generator state (`TrackLine`, src/src/trackline.cpp). -/
structure TrackLine where
  length : ℚ
  layers : ℤ
  currentLodLevel : ℤ
  visible : Bool
  rebuilds : Nat
deriving DecidableEq

namespace TrackLine

/-- `TrackLine::setLodLevel` (trackline.cpp lines 54-82): clamp to [0,2];
when the tier changes, pick the layer count for the tier and rebuild only
when the layer count actually changes. -/
def setLodLevel (level : ℤ) (tl : TrackLine) : TrackLine :=
  let level := if level < 0 then 0 else level
  let level := if level > 2 then 2 else level
  if tl.currentLodLevel ≠ level then
    let tl := { tl with currentLodLevel := level }
    let newLayers : ℤ :=
      if level = 0 then LodConfig.TRACKLINE_LAYERS_HIGH
      else if level = 1 then LodConfig.TRACKLINE_LAYERS_MID
      else LodConfig.TRACKLINE_LAYERS_LOW
    if newLayers ≠ tl.layers then
      { tl with layers := newLayers, rebuilds := tl.rebuilds + 1 }
    else tl
  else tl

end TrackLine

/-- `EntityState::Type` (src/include/EntityManager.h lines 34-37). -/
inductive EntityType where
  | SHIP : EntityType
  | MISSILE : EntityType
deriving DecidableEq

/-- `EntityState` (src/include/EntityManager.h lines 33-62): the transient
producer-supplied state record. -/
structure EntityState where
  entityId : ℤ
  type : EntityType
  lon : ℚ
  lat : ℚ
  alt : ℚ
  heading : ℚ
  pitch : ℚ
  roll : ℚ
  timestamp : ℤ

/-- `ManagedEntity` (src/include/EntityManager.h lines 65-86).  The object
is a `ShipModel`/`MissileModel`, i.e. an `Object3D` carrying attached
sensor volumes (ships) or track lines (missiles); we keep those lists here
so `updateSensorLod`/`updateTrackLineLod` are observable. -/
structure ManagedEntity where
  entityId : ℤ
  type : EntityType
  object : Object3D
  sensors : List SensorVolume
  trackLines : List TrackLine
  lodLevel : ℤ
  lastDistance : ℚ
  lastUpdateTime : ℤ
  visible : Bool
deriving DecidableEq

/-- The registry (`EntityManager`): the `QMap<int, ManagedEntity>` is an
association list with unique keys; every claim-relevant operation treats
entries independently, so ordering is immaterial. -/
structure EntityManager where
  entities : List (ℤ × ManagedEntity)
deriving DecidableEq

namespace EntityManager

/-- `QMap::contains`. -/
def contains (id : ℤ) (m : EntityManager) : Bool :=
  m.entities.any (fun kv => kv.1 = id)

/-- `QMap` lookup (`m_entities[id]` on a contained key). -/
def lookup (id : ℤ) (m : EntityManager) : Option ManagedEntity :=
  (m.entities.find? (fun kv => kv.1 = id)).map Prod.snd

/-- `EntityManager::getEntityCount` (EntityManager.h line 204). -/
def getEntityCount (m : EntityManager) : Nat := m.entities.length

/-- The `ShipModel`/`MissileModel` construction performed by
`EntityManager::createEntity`: both constructors run `Object3D()` and then
`setPosition(0,0,0)`, `setAttitude(0,0,0)` (ships set scale before
attitude, missiles attitude before scale) and `setScale(1.0)` — all
epsilon-gated no-ops on the freshly zeroed object. -/
def newEntityObject : Object3D :=
  ((Object3D.mk0.setPosition 0 0 0).setAttitude 0 0 0).setScale 1

/-- `EntityManager::createEntity` (EntityManager.cpp lines 29-67): reject a
duplicate id; otherwise build the managed record with medium LOD, zero
distance, creation-time stamp, visible, and insert it.  `now` models
`QDateTime::currentMSecsSinceEpoch()`. -/
def createEntity (now : ℤ) (id : ℤ) (ty : EntityType) (m : EntityManager) :
    Bool × EntityManager :=
  if m.contains id then (false, m)
  else
    let managed : ManagedEntity :=
      { entityId := id, type := ty
        object := newEntityObject
        sensors := [], trackLines := []
        lodLevel := 1
        lastDistance := 0
        lastUpdateTime := now
        visible := true }
    (true, ⟨m.entities ++ [(id, managed)]⟩)

/-- The per-entity body of `EntityManager::updateEntityState`
(EntityManager.cpp lines 76-85): forward position and attitude to the
Transform Core, call `updateIfDirty()`, stamp the receipt time. -/
def applyStateToEntity (now : ℤ) (st : EntityState) (e : ManagedEntity) :
    ManagedEntity :=
  { e with
    object := ((e.object.setPosition st.lon st.lat st.alt).setAttitude
                  st.heading st.pitch st.roll).updateIfDirty
    lastUpdateTime := now }

/-- `EntityManager::updateEntityState` (EntityManager.cpp lines 69-86):
no-op (with a warning) on an unknown id, else mutate that entity. -/
def updateEntityState (now : ℤ) (st : EntityState) (m : EntityManager) :
    EntityManager :=
  if m.contains st.entityId then
    ⟨m.entities.map (fun kv =>
      if kv.1 = st.entityId then (kv.1, applyStateToEntity now st kv.2) else kv)⟩
  else m

/-- `EntityManager::updateEntityLod` (EntityManager.cpp lines 252-275),
with the externally computed camera distance `d` passed in: store the
distance, classify it, store and return the new LOD level. -/
def updateEntityLod (d : ℚ) (e : ManagedEntity) : ℤ × ManagedEntity :=
  let newLodLevel : ℤ :=
    if d < LodConfig.DISTANCE_NEAR then 0
    else if d < LodConfig.DISTANCE_MID then 1
    else if d < LodConfig.DISTANCE_FAR then 2
    else 3
  (newLodLevel, { e with lastDistance := d, lodLevel := newLodLevel })

/-- `EntityManager::shouldUpdate` (EntityManager.cpp lines 303-324):
tier-dependent minimum interval since the entity's last update; LOD levels
outside 0..2 never update. -/
def shouldUpdate (now : ℤ) (e : ManagedEntity) : Bool :=
  if e.lodLevel = 0 then decide (now - e.lastUpdateTime ≥ LodConfig.UPDATE_INTERVAL_NEAR)
  else if e.lodLevel = 1 then decide (now - e.lastUpdateTime ≥ LodConfig.UPDATE_INTERVAL_MID)
  else if e.lodLevel = 2 then decide (now - e.lastUpdateTime ≥ LodConfig.UPDATE_INTERVAL_FAR)
  else false

/-- The throttled-update branch of `EntityManager::updateAll`
(EntityManager.cpp lines 219-239): flush dirty transforms, fan the new LOD
level out to the kind-specific geometry generators, stamp the update
time. -/
def flushEntity (now : ℤ) (newLodLevel : ℤ) (e : ManagedEntity) : ManagedEntity :=
  { e with
    object := e.object.updateIfDirty
    sensors := if e.type = EntityType.SHIP then
                 e.sensors.map (SensorVolume.setLodLevel newLodLevel)
               else e.sensors
    trackLines := if e.type = EntityType.MISSILE then
                    e.trackLines.map (TrackLine.setLodLevel newLodLevel)
                  else e.trackLines
    lastUpdateTime := now }

/-- The per-entity body of `EntityManager::updateAll`
(EntityManager.cpp lines 193-240): classify, cull beyond FAR (`continue`),
otherwise restore visibility and, when the throttle allows, flush.  `d`
is the distance `calculateDistance` computes for this entity. -/
def processEntity (d : ℚ) (now : ℤ) (e : ManagedEntity) : ManagedEntity :=
  let r := updateEntityLod d e
  let newLodLevel := r.1
  let e1 := r.2
  if e1.lastDistance > LodConfig.DISTANCE_FAR then
    if e1.visible then
      { e1 with visible := false, object := e1.object.setVisible false }
    else e1
  else
    let e2 := if ¬e1.visible then
                { e1 with visible := true, object := e1.object.setVisible true }
              else e1
    if shouldUpdate now e2 then flushEntity now newLodLevel e2 else e2

/-- `EntityManager::updateAll` (EntityManager.cpp lines 183-250) over a
valid camera.  `distOf` models `calculateDistance`: the distance the
external ellipsoid/vector math yields for an entity's geodetic position. -/
def updateAll (distOf : ℚ → ℚ → ℚ → ℚ) (now : ℤ) (m : EntityManager) :
    EntityManager :=
  ⟨m.entities.map (fun kv =>
    (kv.1,
     processEntity (distOf kv.2.object.longitude kv.2.object.latitude
                      kv.2.object.altitude) now kv.2))⟩

end EntityManager

/-- One stress-test entity (`PerformanceTestManager::EntityPair`): a ship
object and a missile object. -/
structure EntityPair where
  ship : Object3D
  missile : Object3D

/-- Unified-mode policy state (`PerformanceTestManager`,
src/src/PerformanceTestManager.cpp); `unifiedLODMode` defaults to true in
the header. -/
structure PerformanceTestManager where
  unifiedLODMode : Bool
  entities : List EntityPair

namespace PerformanceTestManager

/-- `PerformanceTestManager::setGlobalLODLevel` (lines 220-230): force the
given level on every entity's ship and missile objects. -/
def setGlobalLODLevel (level : ℤ) (m : PerformanceTestManager) :
    PerformanceTestManager :=
  { m with entities := m.entities.map (fun p =>
      ⟨p.ship.forceLODLevel level, p.missile.forceLODLevel level⟩) }

/-- `PerformanceTestManager::setGlobalLODMode` (lines 198-218): record the
mode and set every entity's auto-LOD flag to its negation. -/
def setGlobalLODMode (unifiedMode : Bool) (m : PerformanceTestManager) :
    PerformanceTestManager :=
  { unifiedLODMode := unifiedMode
    entities := m.entities.map (fun p =>
      ⟨p.ship.setAutoLOD (!unifiedMode), p.missile.setAutoLOD (!unifiedMode)⟩) }

/-- `PerformanceTestManager::updateLOD` (lines 160-196).  `eyeLen` models
`eyePos.length()`; `edist` models the per-object distance
`(eyePosition - objectPos).length()` that `Object3D::updateLOD` computes
from the object's earth matrix in individual mode. -/
def updateLOD (eyeLen : ℚ) (edist : EarthMatrix → ℚ) (m : PerformanceTestManager) :
    PerformanceTestManager :=
  if ¬m.unifiedLODMode then
    { m with entities := m.entities.map (fun p =>
        ⟨p.ship.updateLOD (edist p.ship.earthMatrix),
         p.missile.updateLOD (edist p.missile.earthMatrix)⟩) }
  else
    let globalLevel : ℤ := if ratSubLt eyeLen 6371000 500000 then 0 else 1
    setGlobalLODLevel globalLevel m

end PerformanceTestManager

/-!
Per-entity trace semantics for the throttle claims.  `EntityManager`
processes each entity independently of the others, both in `updateAll`
(the entity-wise map above) and in `updateEntityState`, so the evolution
of one registered entity under a sequence of scheduler ticks and producer
updates is captured by folding the per-entity bodies over an event list.
-/

/-- An event affecting one registered entity: a scheduler tick (with the
wall-clock time and the distance `calculateDistance` computes for this
entity that tick), or a producer update `updateEntityState` reaching this
entity (with the receipt time and the new state). -/
inductive EntityEvent where
  | tick (now : ℤ) (d : ℚ) : EntityEvent
  | update (now : ℤ) (st : EntityState) : EntityEvent

namespace EntityManager

/-- Apply one event to one entity. -/
def stepEntity (e : ManagedEntity) : EntityEvent → ManagedEntity
  | .tick now d => processEntity d now e
  | .update now st => applyStateToEntity now st e

/-- Whether an event makes the Transform Core recompute at least one of
its transforms (the spec's "flush"): a tick whose throttled branch runs
`updateIfDirty()` on a dirty core, or a producer update whose
`updateIfDirty()` call finds a flag raised by the setters. -/
def eventFlushes (e : ManagedEntity) : EntityEvent → Bool
  | .tick now d =>
      let r := updateEntityLod d e
      let e1 := r.2
      if e1.lastDistance > LodConfig.DISTANCE_FAR then false
      else
        let e2 := if ¬e1.visible then
                    { e1 with visible := true, object := e1.object.setVisible true }
                  else e1
        shouldUpdate now e2 &&
          (e2.object.positionDirty || e2.object.attitudeDirty || e2.object.scaleDirty)
  | .update _ st =>
      let o := (e.object.setPosition st.lon st.lat st.alt).setAttitude
                  st.heading st.pitch st.roll
      o.positionDirty || o.attitudeDirty || o.scaleDirty

/-- The times of all transform flushes along an event trace, annotated
with the entity's LOD level at the moment of the flush (for a tick, the
level just classified; for a producer update, the stored level). -/
def flushTrace (e : ManagedEntity) : List EntityEvent → List (ℤ × ℤ)
  | [] => []
  | ev :: rest =>
      let t : List (ℤ × ℤ) := flushTrace (stepEntity e ev) rest
      if eventFlushes e ev then
        match ev with
        | .tick now d => (now, (updateEntityLod d e).1) :: t
        | .update now _ => (now, e.lodLevel) :: t
      else t

/-- The spec's `intervalForTier` for tiers 0..2 (EntityManager.cpp
lines 309-321). -/
def intervalForTier (tier : ℤ) : ℤ :=
  if tier = 0 then LodConfig.UPDATE_INTERVAL_NEAR
  else if tier = 1 then LodConfig.UPDATE_INTERVAL_MID
  else LodConfig.UPDATE_INTERVAL_FAR

end EntityManager

/-- The spec's tier map, written from its words: "distance < 500 km maps to
tier 0, otherwise distance < 2000 km maps to tier 1, otherwise distance
< 5000 km maps to tier 2, otherwise tier 3" (distances in meters). -/
def specTier (d : ℚ) : ℤ :=
  if d < 500000 then 0
  else if d < 2000000 then 1
  else if d < 5000000 then 2
  else 3

namespace Ex

/-- The empty registry. -/
def m0 : EntityManager := ⟨[]⟩

/-- A registry holding one ship entity with id 1, created at time 0. -/
def m1 : EntityManager := (EntityManager.createEntity 0 1 .SHIP m0).2

/-- A producer update for entity 1 moving it to longitude 1°. -/
def stMove : EntityState :=
  { entityId := 1, type := .SHIP, lon := 1, lat := 0, alt := 0
    heading := 0, pitch := 0, roll := 0, timestamp := 100 }

/-- The managed entity as `createEntity` builds it at time 0. -/
def e0 : ManagedEntity :=
  { entityId := 1, type := .SHIP
    object := EntityManager.newEntityObject
    sensors := [], trackLines := []
    lodLevel := 1, lastDistance := 0, lastUpdateTime := 0, visible := true }

/-- An invisible managed entity (hidden on an earlier tick). -/
def eHidden : ManagedEntity :=
  { e0 with visible := false, object := e0.object.setVisible false }

/-- An `Object3D` whose dirty flags have been consumed by a flush. -/
def oClean : Object3D := Object3D.mk0.updateIfDirty

/-- An `Object3D` with a successfully supplied billboard image. -/
def oBill : Object3D := Object3D.mk0.setBillboardImage true 50000 50000

/-- A one-entity stress-test manager in unified mode. -/
def perf1 : PerformanceTestManager :=
  { unifiedLODMode := true, entities := [⟨Object3D.mk0, Object3D.mk0⟩] }

end Ex

/-!  Helper lemmas shared by several claims. -/

/-- `setVisible` never touches the position dirty flag. -/
theorem Object3D.setVisible_positionDirty (v : Bool) (o : Object3D) :
    (o.setVisible v).positionDirty = o.positionDirty := by
  simp only [Object3D.setVisible]; split_ifs <;> rfl

/-- `setVisible` never touches the attitude dirty flag. -/
theorem Object3D.setVisible_attitudeDirty (v : Bool) (o : Object3D) :
    (o.setVisible v).attitudeDirty = o.attitudeDirty := by
  simp only [Object3D.setVisible]; split_ifs <;> rfl

/-- `setVisible` never touches the scale dirty flag. -/
theorem Object3D.setVisible_scaleDirty (v : Bool) (o : Object3D) :
    (o.setVisible v).scaleDirty = o.scaleDirty := by
  simp only [Object3D.setVisible]; split_ifs <;> rfl

/-- `setVisible` never touches the earth matrix. -/
theorem Object3D.setVisible_earthMatrix (v : Bool) (o : Object3D) :
    (o.setVisible v).earthMatrix = o.earthMatrix := by
  simp only [Object3D.setVisible]; split_ifs <;> rfl

/-- `setVisible` never touches the local orientation matrix. -/
theorem Object3D.setVisible_onceMatrix (v : Bool) (o : Object3D) :
    (o.setVisible v).onceMatrix = o.onceMatrix := by
  simp only [Object3D.setVisible]; split_ifs <;> rfl

/-- `setVisible` never touches the switch value list. -/
theorem Object3D.setVisible_values (v : Bool) (o : Object3D) :
    (o.setVisible v).lodSwitch.values = o.lodSwitch.values := by
  simp only [Object3D.setVisible]; split_ifs <;> rfl

/-- `updateIfDirty` always leaves all three dirty flags clear. -/
theorem Object3D.updateIfDirty_flags (o : Object3D) :
    (o.updateIfDirty).positionDirty = false ∧
    (o.updateIfDirty).attitudeDirty = false ∧
    (o.updateIfDirty).scaleDirty = false := by
  simp only [Object3D.updateIfDirty]
  split_ifs <;> simp_all

/-- Lookup on a non-empty registry: the head entry answers if its key
matches, the tail answers otherwise. -/
theorem EntityManager.lookup_cons (k : ℤ) (a : ℤ × ManagedEntity)
    (l : List (ℤ × ManagedEntity)) :
    EntityManager.lookup k ⟨a :: l⟩ =
      if a.1 = k then some a.2 else EntityManager.lookup k ⟨l⟩ := by
  by_cases h : a.1 = k
  · simp [EntityManager.lookup, List.find?_cons_of_pos, h]
  · simp [EntityManager.lookup, List.find?_cons_of_neg, h]

/-- Rewriting exactly the entry with key `id` changes only that lookup. -/
theorem EntityManager.lookup_mapEntry (f : ManagedEntity → ManagedEntity)
    (id k : ℤ) (l : List (ℤ × ManagedEntity)) :
    EntityManager.lookup k
      ⟨l.map (fun kv => if kv.1 = id then (kv.1, f kv.2) else kv)⟩ =
      if k = id then (EntityManager.lookup k ⟨l⟩).map f
      else EntityManager.lookup k ⟨l⟩ := by
  induction l with
  | nil => simp [EntityManager.lookup]
  | cons a l ih =>
      by_cases hk : k = id <;> by_cases ha : a.1 = id <;>
        simp only [List.map_cons, EntityManager.lookup_cons, ha, if_true, if_false,
          ite_true, ite_false, hk] at ih ⊢ <;>
        by_cases hak : a.1 = k <;>
        simp_all

/-- Appending a fresh entry: lookups of other keys are unchanged, and the
fresh key answers the appended entity when it was absent before. -/
theorem EntityManager.lookup_append (k id : ℤ) (e : ManagedEntity)
    (l : List (ℤ × ManagedEntity)) :
    (k ≠ id → EntityManager.lookup k ⟨l ++ [(id, e)]⟩ = EntityManager.lookup k ⟨l⟩) ∧
    (EntityManager.lookup id ⟨l⟩ = none →
       EntityManager.lookup id ⟨l ++ [(id, e)]⟩ = some e) := by
  induction l with
  | nil =>
      refine ⟨fun hk => ?_, fun _ => ?_⟩
      · rw [List.nil_append, EntityManager.lookup_cons]
        simp [EntityManager.lookup, Ne.symm hk]
      · rw [List.nil_append, EntityManager.lookup_cons]
        simp
  | cons a l ih =>
      constructor
      · intro hk
        rw [List.cons_append, EntityManager.lookup_cons, EntityManager.lookup_cons]
        split_ifs with h
        · rfl
        · exact ih.1 hk
      · intro hnone
        rw [EntityManager.lookup_cons] at hnone
        rw [List.cons_append, EntityManager.lookup_cons]
        split_ifs at hnone ⊢ with h
        exact ih.2 hnone

/-- `contains` agrees with `lookup` being populated. -/
theorem EntityManager.contains_iff_lookup (k : ℤ) (m : EntityManager) :
    m.contains k = true ↔ (m.lookup k).isSome = true := by
  obtain ⟨l⟩ := m
  induction l with
  | nil => simp [EntityManager.contains, EntityManager.lookup]
  | cons a l ih =>
      rw [EntityManager.lookup_cons]
      by_cases h : a.1 = k
      · simp [EntityManager.contains, List.any_cons, h]
      · simp only [EntityManager.contains, List.any_cons, if_neg h] at ih ⊢
        simp [h, ih]

/-- Effect of the "show proxy" switch writes (`setValue(0,false)` then
`setValue(1,true)`): child 0 is switched off, child count and node mask
are untouched. -/
theorem LodSwitch.far_values (s : LodSwitch) :
    (((s.setValue 0 false).setValue 1 true).values[0]?).getD false = false ∧
    ((s.setValue 0 false).setValue 1 true).numChildren = s.numChildren ∧
    ((s.setValue 0 false).setValue 1 true).nodeMaskOn = s.nodeMaskOn := by
  obtain ⟨n, vals, mask⟩ := s
  rcases vals with _ | ⟨a, vals⟩
  · simp [LodSwitch.setValue]
  · rcases vals with _ | ⟨b, vals⟩ <;> simp [LodSwitch.setValue]

/-- `updateEntityLod` stores the distance and the spec's tier map of it
(the code's if-chain and the spec's agree threshold for threshold). -/
theorem EntityManager.updateEntityLod_spec (d : ℚ) (e : ManagedEntity) :
    EntityManager.updateEntityLod d e =
      (specTier d, { e with lastDistance := d, lodLevel := specTier d }) := by
  simp only [EntityManager.updateEntityLod, specTier,
    LodConfig.DISTANCE_NEAR, LodConfig.DISTANCE_MID, LodConfig.DISTANCE_FAR]

/-- A positive throttle decision bounds the elapsed time from below by the
interval of the entity's (current) tier, which is itself at least the
near-tier interval. -/
theorem EntityManager.shouldUpdate_ge (now : ℤ) (e : ManagedEntity)
    (h : EntityManager.shouldUpdate now e = true) :
    now - e.lastUpdateTime ≥ EntityManager.intervalForTier e.lodLevel ∧
    LodConfig.UPDATE_INTERVAL_NEAR ≤ now - e.lastUpdateTime := by
  simp only [EntityManager.shouldUpdate, EntityManager.intervalForTier,
    LodConfig.UPDATE_INTERVAL_NEAR, LodConfig.UPDATE_INTERVAL_MID,
    LodConfig.UPDATE_INTERVAL_FAR] at h ⊢
  split_ifs at h ⊢ <;> simp_all <;> omega

/-!  Claim theorems. -/

/-- C4: on every tick the assigned tier is a pure function of the entity's
distance to the viewpoint — distance < 500 km gives tier 0, otherwise
< 2000 km gives tier 1, otherwise < 5000 km gives tier 2, otherwise tier 3
(`specTier`) — and the computed distance is stored as the entity's last
known distance.  `updateEntityLod` returns exactly that tier and stores
it together with the distance, for every entity state. -/
theorem C4_tier_classification (d : ℚ) (e : ManagedEntity) :
    EntityManager.updateEntityLod d e =
      (specTier d, { e with lastDistance := d, lodLevel := specTier d }) :=
  EntityManager.updateEntityLod_spec d e

/-- C5 counterexample: a position step of exactly POSITION_EPSILON (1e-9)
on a clean Transform Core mutates the stored longitude and raises the
position dirty flag, although no component differs from its old value by
MORE than the epsilon — the setter's gate is `≥ ε`, not `> ε`, so the
claim's "only if ... more than the epsilon" fails at the boundary. -/
theorem C5_counterexample :
    (Ex.oClean.setPosition LodConfig.POSITION_EPSILON 0 0).positionDirty = true ∧
    (Ex.oClean.setPosition LodConfig.POSITION_EPSILON 0 0).longitude =
      LodConfig.POSITION_EPSILON ∧
    Ex.oClean.positionDirty = false ∧
    ¬(absDiffGt Ex.oClean.longitude LodConfig.POSITION_EPSILON
        LodConfig.POSITION_EPSILON ∨
      absDiffGt Ex.oClean.latitude 0 LodConfig.POSITION_EPSILON ∨
      absDiffGt Ex.oClean.altitude 0 LodConfig.POSITION_EPSILON) := by
  decide

/-- C5 (amended: a setter mutates and raises its dirty flag iff some
component differs from the current value by AT LEAST its epsilon —
position 1e-9, attitude 1e-6, scale 1e-6; at a delta of exactly the
epsilon it does mutate): when every component's delta is strictly below
the epsilon the object, its dirty flags and both transform matrices are
bit-identical to before the call; otherwise the setter stores the new
components and raises exactly its dirty flag; and no setter ever touches
the matrices. -/
theorem C5_epsilon_gating (o : Object3D) (lon lat alt hd pt rl s : ℚ) :
    ((absDiffLt o.longitude lon LodConfig.POSITION_EPSILON ∧
      absDiffLt o.latitude lat LodConfig.POSITION_EPSILON ∧
      absDiffLt o.altitude alt LodConfig.POSITION_EPSILON) →
        o.setPosition lon lat alt = o) ∧
    (¬(absDiffLt o.longitude lon LodConfig.POSITION_EPSILON ∧
       absDiffLt o.latitude lat LodConfig.POSITION_EPSILON ∧
       absDiffLt o.altitude alt LodConfig.POSITION_EPSILON) →
        o.setPosition lon lat alt =
          { o with longitude := lon, latitude := lat, altitude := alt,
                   positionDirty := true }) ∧
    ((absDiffLt o.heading hd LodConfig.ATTITUDE_EPSILON ∧
      absDiffLt o.pitch pt LodConfig.ATTITUDE_EPSILON ∧
      absDiffLt o.roll rl LodConfig.ATTITUDE_EPSILON) →
        o.setAttitude hd pt rl = o) ∧
    (¬(absDiffLt o.heading hd LodConfig.ATTITUDE_EPSILON ∧
       absDiffLt o.pitch pt LodConfig.ATTITUDE_EPSILON ∧
       absDiffLt o.roll rl LodConfig.ATTITUDE_EPSILON) →
        o.setAttitude hd pt rl =
          { o with heading := hd, pitch := pt, roll := rl,
                   attitudeDirty := true }) ∧
    (absDiffLt o.scale s LodConfig.SCALE_EPSILON → o.setScale s = o) ∧
    (¬absDiffLt o.scale s LodConfig.SCALE_EPSILON →
        o.setScale s = { o with scale := s, scaleDirty := true }) ∧
    (o.setPosition lon lat alt).earthMatrix = o.earthMatrix ∧
    (o.setPosition lon lat alt).onceMatrix = o.onceMatrix ∧
    (o.setAttitude hd pt rl).earthMatrix = o.earthMatrix ∧
    (o.setAttitude hd pt rl).onceMatrix = o.onceMatrix ∧
    (o.setScale s).earthMatrix = o.earthMatrix ∧
    (o.setScale s).onceMatrix = o.onceMatrix := by
  simp only [Object3D.setPosition, Object3D.setAttitude, Object3D.setScale]
  split_ifs <;> simp_all

/-- C5 witness: at a delta of zero the below-epsilon branch applies, and at
a longitude step of 1 the mutating branch applies. -/
theorem C5_witness :
    ((absDiffLt Ex.oClean.longitude 0 LodConfig.POSITION_EPSILON ∧
      absDiffLt Ex.oClean.latitude 0 LodConfig.POSITION_EPSILON ∧
      absDiffLt Ex.oClean.altitude 0 LodConfig.POSITION_EPSILON) ∧
     Ex.oClean.setPosition 0 0 0 = Ex.oClean) ∧
    (¬(absDiffLt Ex.oClean.longitude 1 LodConfig.POSITION_EPSILON ∧
       absDiffLt Ex.oClean.latitude 0 LodConfig.POSITION_EPSILON ∧
       absDiffLt Ex.oClean.altitude 0 LodConfig.POSITION_EPSILON) ∧
     Ex.oClean.setPosition 1 0 0 =
       { Ex.oClean with longitude := 1, latitude := 0, altitude := 0,
                        positionDirty := true }) :=
  ⟨⟨by decide,
    (C5_epsilon_gating Ex.oClean 0 0 0 0 0 0 1).1 (by decide)⟩,
   ⟨by decide,
    (C5_epsilon_gating Ex.oClean 1 0 0 0 0 0 1).2.1 (by decide)⟩⟩

/-- Faithfulness of the cross-multiplied comparison: `ratSubLt a b c`
is exactly `a - b < c`. -/
theorem ratSubLt_iff (a b c : ℚ) : ratSubLt a b c ↔ a - b < c := by
  have ha : (0:ℚ) < (a.den : ℚ) := by exact_mod_cast a.pos
  have hb : (0:ℚ) < (b.den : ℚ) := by exact_mod_cast b.pos
  have hc : (0:ℚ) < (c.den : ℚ) := by exact_mod_cast c.pos
  have hsub : a - b =
      ((a.num : ℚ) * b.den - b.num * a.den) / ((a.den : ℚ) * b.den) := by
    conv_lhs => rw [← Rat.num_div_den a, ← Rat.num_div_den b]
    rw [div_sub_div _ _ (ne_of_gt ha) (ne_of_gt hb)]
    ring
  rw [ratSubLt, hsub, div_lt_iff₀ (by positivity)]
  conv_rhs => rw [show c = ((c.num : ℚ)) / ((c.den : ℚ)) from (Rat.num_div_den c).symm]
  rw [div_mul_eq_mul_div, lt_div_iff₀ hc]
  norm_cast

/-- Faithfulness of the reversed comparison: `ratLtSub c a b` is exactly
`c < a - b`. -/
theorem ratLtSub_iff (c a b : ℚ) : ratLtSub c a b ↔ c < a - b := by
  have ha : (0:ℚ) < (a.den : ℚ) := by exact_mod_cast a.pos
  have hb : (0:ℚ) < (b.den : ℚ) := by exact_mod_cast b.pos
  have hc : (0:ℚ) < (c.den : ℚ) := by exact_mod_cast c.pos
  have hsub : a - b =
      ((a.num : ℚ) * b.den - b.num * a.den) / ((a.den : ℚ) * b.den) := by
    conv_lhs => rw [← Rat.num_div_den a, ← Rat.num_div_den b]
    rw [div_sub_div _ _ (ne_of_gt ha) (ne_of_gt hb)]
    ring
  rw [ratLtSub, hsub, lt_div_iff₀ (by positivity)]
  conv_rhs => rw [show c = ((c.num : ℚ)) / ((c.den : ℚ)) from (Rat.num_div_den c).symm]
  rw [div_mul_eq_mul_div, div_lt_iff₀ hc]
  norm_cast

/-- Faithfulness of the epsilon gate: `absDiffLt a b c` is `|a - b| < c`. -/
theorem absDiffLt_iff (a b c : ℚ) : absDiffLt a b c ↔ |a - b| < c := by
  rw [absDiffLt, ratSubLt_iff, ratSubLt_iff, abs_sub_lt_iff]

/-- Faithfulness of the magnitude guard: `absDiffGt a b c` is `c < |a - b|`. -/
theorem absDiffGt_iff (a b c : ℚ) : absDiffGt a b c ↔ c < |a - b| := by
  rw [absDiffGt, ratLtSub_iff, ratLtSub_iff, lt_abs, neg_sub]

/-- C6: `createEntity` with an id already present returns false and leaves
the registry — including the existing entity — completely untouched; with
a fresh id it returns true, the entity count grows by exactly one, the new
id maps to the created entity, and every other id's entry is unchanged. -/
theorem C6_register_duplicate (now : ℤ) (id : ℤ) (ty : EntityType)
    (m : EntityManager) :
    (m.contains id = true → EntityManager.createEntity now id ty m = (false, m)) ∧
    (m.contains id = false →
       (EntityManager.createEntity now id ty m).1 = true ∧
       (EntityManager.createEntity now id ty m).2.getEntityCount =
         m.getEntityCount + 1 ∧
       (∀ k, k ≠ id →
          (EntityManager.createEntity now id ty m).2.lookup k = m.lookup k) ∧
       ((EntityManager.createEntity now id ty m).2.lookup id).isSome = true) := by
  constructor
  · intro h
    simp [EntityManager.createEntity, h]
  · intro h
    have hnone : m.lookup id = none := by
      have := (EntityManager.contains_iff_lookup id m).not
      simp [h] at this
      exact Option.not_isSome_iff_eq_none.mp (by simpa using this)
    obtain ⟨l⟩ := m
    refine ⟨by simp [EntityManager.createEntity, h], ?_, ?_, ?_⟩
    · simp [EntityManager.createEntity, h, EntityManager.getEntityCount]
    · intro k hk
      simp only [EntityManager.createEntity, h, Bool.false_eq_true, if_false]
      exact (EntityManager.lookup_append k id _ l).1 hk
    · simp only [EntityManager.createEntity, h, Bool.false_eq_true, if_false]
      rw [(EntityManager.lookup_append id id _ l).2 hnone]
      rfl

/-- C6 witness: on the one-entity registry a duplicate register of id 1
fails and changes nothing; on the empty registry registering id 1 succeeds
and the count becomes one. -/
theorem C6_witness :
    (Ex.m1.contains 1 = true ∧
     EntityManager.createEntity 5 1 .SHIP Ex.m1 = (false, Ex.m1)) ∧
    (Ex.m0.contains 1 = false ∧
     (EntityManager.createEntity 0 1 .SHIP Ex.m0).1 = true ∧
     (EntityManager.createEntity 0 1 .SHIP Ex.m0).2.getEntityCount =
       Ex.m0.getEntityCount + 1) :=
  ⟨⟨by decide, (C6_register_duplicate 5 1 .SHIP Ex.m1).1 (by decide)⟩,
   ⟨by decide, ((C6_register_duplicate 0 1 .SHIP Ex.m0).2 (by decide)).1,
    ((C6_register_duplicate 0 1 .SHIP Ex.m0).2 (by decide)).2.1⟩⟩

/-- C7 counterexample: `Object3D::forceLODLevel` does NOT clamp: the
out-of-range levels 2 and -1 fall through both branches and leave the
object untouched (a rejected no-op), whereas a clamp to the nearest valid
level (1) would have flipped the switch. -/
theorem C7_counterexample :
    Object3D.forceLODLevel 2 Ex.oBill = Ex.oBill ∧
    Object3D.forceLODLevel (-1) Ex.oBill = Ex.oBill ∧
    (Ex.oBill.forceLODLevel 1).lodSwitch ≠ Ex.oBill.lodSwitch := by
  decide

/-- C7 (amended: `SensorVolume::setLodLevel` and `TrackLine::setLodLevel`
clamp any integer level into [0,2] and apply it, but
`Object3D::forceLODLevel` does not clamp — it acts only on the exact
levels 0 and 1 and ignores every other value as a no-op). -/
theorem C7_tier_clamping (level : ℤ) (sv : SensorVolume) (tl : TrackLine)
    (o : Object3D) :
    (sv.setLodLevel level).currentLodLevel = min 2 (max 0 level) ∧
    (tl.setLodLevel level).currentLodLevel = min 2 (max 0 level) ∧
    (level ≠ 0 → level ≠ 1 → o.forceLODLevel level = o) := by
  refine ⟨?_, ?_, ?_⟩
  · simp only [SensorVolume.setLodLevel]
    split_ifs <;> simp_all <;> omega
  · simp only [TrackLine.setLodLevel]
    split_ifs <;> simp_all <;> omega
  · intro h0 h1
    simp [Object3D.forceLODLevel, h0, h1]

/-- C7 witness: level 7 is clamped to 2 by both generators, and level 7 is
ignored by `forceLODLevel`. -/
theorem C7_witness :
    (({ radius := 10, currentLodLevel := 1, visible := true, rebuilds := 1 :
          SensorVolume }).setLodLevel 7).currentLodLevel = min 2 (max 0 7) ∧
    (({ length := 10, layers := 80, currentLodLevel := 1, visible := true,
          rebuilds := 1 : TrackLine }).setLodLevel 7).currentLodLevel =
      min 2 (max 0 7) ∧
    ((7 : ℤ) ≠ 0 ∧ (7 : ℤ) ≠ 1 ∧ Ex.oBill.forceLODLevel 7 = Ex.oBill) :=
  ⟨(C7_tier_clamping 7 ⟨10, 1, true, 1⟩ ⟨10, 80, 1, true, 1⟩ Ex.oBill).1,
   (C7_tier_clamping 7 ⟨10, 1, true, 1⟩ ⟨10, 80, 1, true, 1⟩ Ex.oBill).2.1,
   by decide,
   by decide,
   (C7_tier_clamping 7 ⟨10, 1, true, 1⟩ ⟨10, 80, 1, true, 1⟩ Ex.oBill).2.2
     (by decide) (by decide)⟩

/-- C9 counterexample: on a fresh object with no billboard asset,
`forceLODLevel(1)` is NOT a no-op on the displayed representation: the
full 3D model was shown and is now hidden (and nothing is shown in its
place); `updateLOD` at/beyond the near threshold does the same. -/
theorem C9_counterexample :
    Object3D.mk0.billboardNode = none ∧
    Object3D.mk0.modelShown = true ∧
    (Object3D.mk0.forceLODLevel 1).modelShown = false ∧
    (Object3D.mk0.forceLODLevel 1).proxyShown = false ∧
    (Object3D.mk0.updateLOD 600000).modelShown = false := by
  decide

/-- C9 (amended: with no billboard asset in the switch, attempting to show
the proxy — `forceLODLevel(1)` or `updateLOD` at/beyond the near
threshold — still flips the switch values, hiding the full 3D model while
showing nothing in the proxy slot; it is non-fatal, and a
`setBillboardImage` whose image fails to load leaves the object
unchanged). -/
theorem C9_proxy_without_asset (o : Object3D) (w h d : ℚ)
    (hb : o.billboardNode = none) (hc : o.lodSwitch.numChildren < 2) :
    o.setBillboardImage false w h = o ∧
    (o.forceLODLevel 1).modelShown = false ∧
    (o.forceLODLevel 1).proxyShown = false ∧
    (o.autoLOD = true → ¬(d < o.nearDistance) →
       (o.updateLOD d).modelShown = false ∧ (o.updateLOD d).proxyShown = false) := by
  have hfar := LodSwitch.far_values o.lodSwitch
  have hnot1 : ¬(1 < o.lodSwitch.numChildren) := by omega
  refine ⟨?_, ?_, ?_, ?_⟩
  · simp [Object3D.setBillboardImage, hb]
  · simp [Object3D.forceLODLevel, Object3D.modelShown, LodSwitch.childShown,
      hfar.1]
  · simp [Object3D.forceLODLevel, Object3D.proxyShown, LodSwitch.childShown,
      hfar.2.1, hnot1]
  · intro hauto hfar2
    constructor
    · simp [Object3D.updateLOD, hauto, hfar2, Object3D.modelShown,
        LodSwitch.childShown, hfar.1]
    · simp [Object3D.updateLOD, hauto, hfar2, Object3D.proxyShown,
        LodSwitch.childShown, hfar.2.1, hnot1]

/-- C9 witness: the fresh object has no billboard and one switch child;
forcing the proxy hides the model and shows nothing, and a failed image
load is a no-op. -/
theorem C9_witness :
    (Object3D.mk0.billboardNode = none ∧
     Object3D.mk0.lodSwitch.numChildren < 2 ∧
     Object3D.mk0.autoLOD = true ∧
     ¬((600000 : ℚ) < Object3D.mk0.nearDistance)) ∧
    Object3D.mk0.setBillboardImage false 50000 50000 = Object3D.mk0 ∧
    (Object3D.mk0.forceLODLevel 1).modelShown = false ∧
    (Object3D.mk0.updateLOD 600000).modelShown = false :=
  ⟨⟨by decide, by decide, by decide, by decide⟩,
   (C9_proxy_without_asset Object3D.mk0 50000 50000 600000 (by decide)
      (by decide)).1,
   (C9_proxy_without_asset Object3D.mk0 50000 50000 600000 (by decide)
      (by decide)).2.1,
   ((C9_proxy_without_asset Object3D.mk0 50000 50000 600000 (by decide)
      (by decide)).2.2.2 (by decide) (by decide)).1⟩

/-- C8: in unified mode every LOD update computes the single global level
from the viewpoint altitude above the reference sphere — level 0 when
`eyeLen - 6371000 < 500000` (altitude below 500 km), else level 1 — and
forces that same level on every entity's ship and missile objects; and
toggling the mode sets every entity's auto-LOD flag to the negation of the
unified-mode flag, so the two policies are mutually exclusive. -/
theorem C8_unified_mode (m : PerformanceTestManager) (eyeLen : ℚ)
    (edist : EarthMatrix → ℚ) (u : Bool) :
    (m.unifiedLODMode = true →
       (m.updateLOD eyeLen edist).entities =
         m.entities.map (fun p =>
           ⟨p.ship.forceLODLevel (if ratSubLt eyeLen 6371000 500000 then 0 else 1),
            p.missile.forceLODLevel
              (if ratSubLt eyeLen 6371000 500000 then 0 else 1)⟩)) ∧
    ((m.setGlobalLODMode u).unifiedLODMode = u) ∧
    (∀ p ∈ (m.setGlobalLODMode u).entities,
        p.ship.autoLOD = !u ∧ p.missile.autoLOD = !u) := by
  refine ⟨?_, rfl, ?_⟩
  · intro h
    simp [PerformanceTestManager.updateLOD, h,
      PerformanceTestManager.setGlobalLODLevel]
  · intro p hp
    simp only [PerformanceTestManager.setGlobalLODMode, List.mem_map] at hp
    obtain ⟨q, _, rfl⟩ := hp
    exact ⟨rfl, rfl⟩

/-- C8 witness: on a one-entity manager in unified mode with the viewpoint
at zero altitude, the update forces level 0 on both objects, and switching
to individual mode raises every auto-LOD flag. -/
theorem C8_witness :
    Ex.perf1.unifiedLODMode = true ∧
    (Ex.perf1.updateLOD 6371000 (fun _ => 0)).entities =
      Ex.perf1.entities.map (fun p =>
        ⟨p.ship.forceLODLevel
           (if ratSubLt 6371000 6371000 500000 then 0 else 1),
         p.missile.forceLODLevel
           (if ratSubLt 6371000 6371000 500000 then 0 else 1)⟩) ∧
    (Ex.perf1.setGlobalLODMode false).unifiedLODMode = false ∧
    (∀ p ∈ (Ex.perf1.setGlobalLODMode false).entities,
        p.ship.autoLOD = !false ∧ p.missile.autoLOD = !false) :=
  ⟨by decide,
   (C8_unified_mode Ex.perf1 6371000 (fun _ => 0) false).1 (by decide),
   (C8_unified_mode Ex.perf1 6371000 (fun _ => 0) false).2.1,
   (C8_unified_mode Ex.perf1 6371000 (fun _ => 0) false).2.2⟩

/-- C1 counterexample: on the one-entity registry, a producer update that
moves entity 1 to longitude 1° recomputes the earth transform INSIDE
`updateEntityState` itself — the stored matrix changes from the default to
the one computed from the new position and the position dirty flag comes
back consumed — contradicting "does not itself trigger a transform flush;
the flush happens only on the next scheduler tick". -/
theorem C1_counterexample :
    ((Ex.m1.lookup 1).map (fun e => e.object.earthMatrix) =
       some EarthMatrix.ident) ∧
    (((EntityManager.updateEntityState 100 Ex.stMove Ex.m1).lookup 1).map
       (fun e => e.object.earthMatrix) = some (EarthMatrix.fromGeo 0 1 0)) ∧
    (((EntityManager.updateEntityState 100 Ex.stMove Ex.m1).lookup 1).map
       (fun e => e.object.positionDirty) = some false) := by
  decide

/-- C1 (amended: `updateEntityState` forwards the new position and
attitude to the entity's Transform Core (epsilon-gated) and stamps the
receipt time, and it ALSO immediately flushes the transforms by calling
`updateIfDirty()` — every dirty flag is consumed before it returns, so the
flush is not deferred to the next scheduler tick; unknown ids are
no-ops). -/
theorem C1_applyUpdate (now : ℤ) (st : EntityState) (m : EntityManager) :
    (m.contains st.entityId = false →
       EntityManager.updateEntityState now st m = m) ∧
    (m.contains st.entityId = true →
       (EntityManager.updateEntityState now st m).lookup st.entityId =
         (m.lookup st.entityId).map (EntityManager.applyStateToEntity now st)) ∧
    (∀ k, k ≠ st.entityId →
       (EntityManager.updateEntityState now st m).lookup k = m.lookup k) ∧
    (∀ e : ManagedEntity,
       (EntityManager.applyStateToEntity now st e).object =
         ((e.object.setPosition st.lon st.lat st.alt).setAttitude
             st.heading st.pitch st.roll).updateIfDirty ∧
       (EntityManager.applyStateToEntity now st e).lastUpdateTime = now ∧
       (EntityManager.applyStateToEntity now st e).object.positionDirty = false ∧
       (EntityManager.applyStateToEntity now st e).object.attitudeDirty = false ∧
       (EntityManager.applyStateToEntity now st e).object.scaleDirty = false) := by
  obtain ⟨l⟩ := m
  refine ⟨?_, ?_, ?_, ?_⟩
  · intro h
    simp [EntityManager.updateEntityState, h]
  · intro h
    simp only [EntityManager.updateEntityState, h, if_true]
    exact EntityManager.lookup_mapEntry _ st.entityId st.entityId l ▸ (by simp)
  · intro k hk
    by_cases h : EntityManager.contains st.entityId ⟨l⟩
    · simp only [EntityManager.updateEntityState, h, if_true]
      rw [EntityManager.lookup_mapEntry _ st.entityId k l, if_neg hk]
    · simp [EntityManager.updateEntityState, h]
  · intro e
    have hf := Object3D.updateIfDirty_flags
      ((e.object.setPosition st.lon st.lat st.alt).setAttitude
         st.heading st.pitch st.roll)
    exact ⟨rfl, rfl, hf.1, hf.2.1, hf.2.2⟩

/-- C1 witness: applying the concrete producer update to the one-entity
registry reaches the contained branch and the per-entity facts at
entity 1's state. -/
theorem C1_witness :
    Ex.m1.contains 1 = true ∧
    (EntityManager.updateEntityState 100 Ex.stMove Ex.m1).lookup 1 =
      (Ex.m1.lookup 1).map (EntityManager.applyStateToEntity 100 Ex.stMove) ∧
    (EntityManager.applyStateToEntity 100 Ex.stMove Ex.e0).lastUpdateTime = 100 ∧
    (EntityManager.applyStateToEntity 100 Ex.stMove Ex.e0).object.positionDirty =
      false :=
  ⟨by decide,
   (C1_applyUpdate 100 Ex.stMove Ex.m1).2.1 (by decide),
   ((C1_applyUpdate 100 Ex.stMove Ex.m1).2.2.2 Ex.e0).2.1,
   ((C1_applyUpdate 100 Ex.stMove Ex.m1).2.2.2 Ex.e0).2.2.1⟩

/-- C3 counterexample: at a computed distance of exactly FAR (5,000,000 m)
the entity is classified tier 3, yet the cull test `lastDistance > FAR` is
false, so the tick does NOT force visibility off — it even restores
visibility of a previously hidden entity — while the claim says every
tier-3 entity has its visibility forced off. -/
theorem C3_counterexample :
    (EntityManager.updateEntityLod 5000000 Ex.eHidden).1 = 3 ∧
    Ex.eHidden.visible = false ∧
    (EntityManager.processEntity 5000000 1000 Ex.eHidden).visible = true ∧
    (EntityManager.processEntity 5000000 1000 Ex.eHidden).lodLevel = 3 := by
  decide

/-- The spec tier at any distance strictly beyond FAR is 3. -/
theorem specTier_far (d : ℚ) (hd : LodConfig.DISTANCE_FAR ≤ d) :
    specTier d = 3 := by
  have h1 : ¬(d < 500000) := by
    simp only [LodConfig.DISTANCE_FAR] at hd
    intro h; nlinarith
  have h2 : ¬(d < 2000000) := by
    simp only [LodConfig.DISTANCE_FAR] at hd
    intro h; nlinarith
  have h3 : ¬(d < 5000000) := by
    simp only [LodConfig.DISTANCE_FAR] at hd
    intro h; nlinarith
  simp [specTier, h1, h2, h3]

/-- C3 (amended: visibility is forced off exactly for distances STRICTLY
beyond FAR; such a culled entity is skipped entirely — dirty flags,
matrices, generator tiers and the throttle stamp stay untouched; any
distance at or below FAR restores/keeps visibility on; and even at
distance exactly FAR, where the entity is tier 3 but not hidden, no flush
or generator update happens because the throttle rejects tier 3). -/
theorem C3_far_culling (e : ManagedEntity) (d : ℚ) (now : ℤ) :
    (LodConfig.DISTANCE_FAR < d →
       (EntityManager.processEntity d now e).visible = false) ∧
    (¬(LodConfig.DISTANCE_FAR < d) →
       (EntityManager.processEntity d now e).visible = true) ∧
    (LodConfig.DISTANCE_FAR ≤ d →
       (EntityManager.processEntity d now e).object.positionDirty =
         e.object.positionDirty ∧
       (EntityManager.processEntity d now e).object.attitudeDirty =
         e.object.attitudeDirty ∧
       (EntityManager.processEntity d now e).object.scaleDirty =
         e.object.scaleDirty ∧
       (EntityManager.processEntity d now e).object.earthMatrix =
         e.object.earthMatrix ∧
       (EntityManager.processEntity d now e).object.onceMatrix =
         e.object.onceMatrix ∧
       (EntityManager.processEntity d now e).sensors = e.sensors ∧
       (EntityManager.processEntity d now e).trackLines = e.trackLines ∧
       (EntityManager.processEntity d now e).lastUpdateTime =
         e.lastUpdateTime) := by
  refine ⟨?_, ?_, ?_⟩
  · intro hd
    simp only [EntityManager.processEntity, EntityManager.updateEntityLod_spec]
    simp only [gt_iff_lt, if_pos hd]
    split_ifs <;> simp_all
  · intro hd
    simp only [EntityManager.processEntity, EntityManager.updateEntityLod_spec]
    simp only [gt_iff_lt, if_neg hd]
    split_ifs <;> simp_all [EntityManager.flushEntity]
  · intro hd
    have h3 : specTier d = 3 := specTier_far d hd
    simp only [EntityManager.processEntity, EntityManager.updateEntityLod_spec]
    split_ifs <;>
      simp_all [EntityManager.shouldUpdate, EntityManager.flushEntity,
        Object3D.setVisible_positionDirty, Object3D.setVisible_attitudeDirty,
        Object3D.setVisible_scaleDirty, Object3D.setVisible_earthMatrix,
        Object3D.setVisible_onceMatrix]

/-- C3 witness: at 6,000 km the hidden-branch applies and the culled
entity keeps its dirty flags; at 4,000 km visibility is restored. -/
theorem C3_witness :
    (LodConfig.DISTANCE_FAR < (6000000 : ℚ) ∧
     (EntityManager.processEntity 6000000 1000 Ex.e0).visible = false ∧
     (EntityManager.processEntity 6000000 1000 Ex.e0).object.positionDirty =
       Ex.e0.object.positionDirty ∧
     (EntityManager.processEntity 6000000 1000 Ex.e0).sensors = Ex.e0.sensors ∧
     (EntityManager.processEntity 6000000 1000 Ex.e0).lastUpdateTime =
       Ex.e0.lastUpdateTime) ∧
    (¬(LodConfig.DISTANCE_FAR < (4000000 : ℚ)) ∧
     (EntityManager.processEntity 4000000 1000 Ex.eHidden).visible = true) :=
  ⟨⟨by decide,
    (C3_far_culling Ex.e0 6000000 1000).1 (by decide),
    ((C3_far_culling Ex.e0 6000000 1000).2.2 (by decide)).1,
    ((C3_far_culling Ex.e0 6000000 1000).2.2 (by decide)).2.2.2.2.2.1,
    ((C3_far_culling Ex.e0 6000000 1000).2.2 (by decide)).2.2.2.2.2.2.2⟩,
   ⟨by decide,
    (C3_far_culling Ex.eHidden 4000000 1000).2.1 (by decide)⟩⟩

/-- A tick that flushes stamps `lastUpdateTime := now`, and the throttle
guarantees the elapsed time since the previous stamp is at least the
interval of the tier classified on this tick. -/
theorem EntityManager.tick_flush_stamps (d : ℚ) (now : ℤ) (e : ManagedEntity)
    (h : EntityManager.eventFlushes e (.tick now d) = true) :
    (EntityManager.processEntity d now e).lastUpdateTime = now ∧
    now - e.lastUpdateTime ≥ EntityManager.intervalForTier (specTier d) := by
  simp only [EntityManager.eventFlushes, EntityManager.updateEntityLod_spec] at h
  simp only [EntityManager.processEntity, EntityManager.updateEntityLod_spec]
  split_ifs at h ⊢ <;>
    first
    | exact (Bool.false_ne_true h).elim
    | (rw [Bool.and_eq_true] at h
       exact absurd h.1 (by assumption))
    | (rw [Bool.and_eq_true] at h
       refine ⟨by simp [EntityManager.flushEntity], ?_⟩
       have hge := (EntityManager.shouldUpdate_ge now _ h.1).1
       simpa using hge)

/-- The per-tier minimum interval is never below the near interval. -/
theorem EntityManager.intervalForTier_ge_near (t : ℤ) :
    LodConfig.UPDATE_INTERVAL_NEAR ≤ EntityManager.intervalForTier t := by
  simp only [EntityManager.intervalForTier, LodConfig.UPDATE_INTERVAL_NEAR,
    LodConfig.UPDATE_INTERVAL_MID, LodConfig.UPDATE_INTERVAL_FAR]
  split_ifs <;> omega

/-- C10 counterexample: an entity registered at time 0 (medium LOD 1 by
initialization) is flushed by a tick at time 50 that classifies it tier 0
— 50 ms after creation, sooner than the medium-tier interval of 100 ms —
because the tick overwrites the initial LOD before the throttle check. -/
theorem C10_counterexample :
    Ex.e0.lodLevel = 1 ∧
    Ex.e0.lastUpdateTime = 0 ∧
    EntityManager.flushTrace Ex.e0 [.tick 50 100] = [(50, 0)] ∧
    (50 : ℤ) - 0 < LodConfig.UPDATE_INTERVAL_MID := by
  decide

/-- C10 (amended: a successful `createEntity` initializes the managed
entity with lodLevel 1, visible, lastDistance 0 and lastUpdateTime equal
to the creation time, so its first tick flush cannot occur sooner than
`intervalForTier` of the tier classified on that first tick — hence at
least the NEAR interval of 50 ms — after creation; the initial medium
level is overwritten by the tick's classification before the throttle
check, so the medium interval of 100 ms is not the binding bound). -/
theorem C10_fresh_entity (now : ℤ) (id : ℤ) (ty : EntityType)
    (m : EntityManager) (h : m.contains id = false) :
    ∃ e : ManagedEntity,
      (EntityManager.createEntity now id ty m).2.lookup id = some e ∧
      e.lodLevel = 1 ∧ e.visible = true ∧ e.lastDistance = 0 ∧
      e.lastUpdateTime = now ∧
      (∀ (d : ℚ) (now2 : ℤ),
         EntityManager.eventFlushes e (.tick now2 d) = true →
           now2 - now ≥ EntityManager.intervalForTier (specTier d) ∧
           LodConfig.UPDATE_INTERVAL_NEAR ≤ now2 - now) := by
  have hnone : m.lookup id = none := by
    have hiff := (EntityManager.contains_iff_lookup id m).not
    simp [h] at hiff
    exact Option.not_isSome_iff_eq_none.mp (by simpa using hiff)
  obtain ⟨l⟩ := m
  refine ⟨{ entityId := id, type := ty, object := EntityManager.newEntityObject,
            sensors := [], trackLines := [], lodLevel := 1, lastDistance := 0,
            lastUpdateTime := now, visible := true }, ?_, rfl, rfl, rfl, rfl, ?_⟩
  · simp only [EntityManager.createEntity, h, Bool.false_eq_true, if_false]
    exact (EntityManager.lookup_append id id _ l).2 hnone
  · intro d now2 hflush
    have hstamp := (EntityManager.tick_flush_stamps d now2 _ hflush).2
    have hnear := EntityManager.intervalForTier_ge_near (specTier d)
    simp only at hstamp
    exact ⟨by simpa using hstamp, by
      have : now2 - now ≥ EntityManager.intervalForTier (specTier d) := by
        simpa using hstamp
      omega⟩

/-- C10 witness: registering id 1 in the empty registry at time 0 yields
the initialized entity with the first-flush lower bound. -/
theorem C10_witness :
    ∃ e : ManagedEntity,
      (EntityManager.createEntity 0 1 .SHIP Ex.m0).2.lookup 1 = some e ∧
      e.lodLevel = 1 ∧ e.visible = true ∧ e.lastDistance = 0 ∧
      e.lastUpdateTime = 0 ∧
      (∀ (d : ℚ) (now2 : ℤ),
         EntityManager.eventFlushes e (.tick now2 d) = true →
           now2 - 0 ≥ EntityManager.intervalForTier (specTier d) ∧
           LodConfig.UPDATE_INTERVAL_NEAR ≤ now2 - 0) :=
  C10_fresh_entity 0 1 .SHIP Ex.m0 (by decide)
